import Mathlib

/-
Verification of the SnapDown backend (src/app.py) against its
natural-language specification.  The Python source is shallowly embedded:
pure decision logic (URL pattern matching, format classification and
ordering, primary-URL selection, the conversion command and its
success check, the download route's branching) becomes executable Lean
functions; effects (subprocess runs, the filesystem) become explicit
oracle parameters.
-/

namespace SnapDown

/- Character-list helpers mirroring Python string operations. -/

/-- Boolean test that the first list is a prefix of the second
(mirrors Python str.startswith at the character level). -/
def prefixOfL : List Char → List Char → Bool
  | [], _ => true
  | _ :: _, [] => false
  | c :: cs, d :: ds => c == d && prefixOfL cs ds

/-- Boolean test that needle occurs as a contiguous substring of hay
(mirrors the Python operator `needle in hay`). -/
def hasSub (needle : List Char) : List Char → Bool
  | [] => needle.isEmpty
  | h :: t => prefixOfL needle (h :: t) || hasSub needle t

/-- Boolean test that suff is a suffix of s (mirrors Python str.endswith). -/
def endsWithL (suff s : List Char) : Bool :=
  prefixOfL suff.reverse s.reverse

/-- ASCII lowercasing of a character list (mirrors Python str.lower on
the ASCII range, which is all the patterns compare against). -/
def lowerL (s : List Char) : List Char := s.map Char.toLower

/- A small regular-expression engine (Brzozowski derivatives), used to
embed the Python `re` patterns of app.py exactly. -/

/-- Regular expressions over characters; cls carries a character-class
predicate. -/
inductive Rx where
  | fail : Rx
  | eps : Rx
  | cls : (Char → Bool) → Rx
  | seq : Rx → Rx → Rx
  | alt : Rx → Rx → Rx
  | star : Rx → Rx

/-- Smart sequencing that collapses fail and eps, keeping derivatives small. -/
def rseq : Rx → Rx → Rx
  | Rx.fail, _ => Rx.fail
  | _, Rx.fail => Rx.fail
  | Rx.eps, b => b
  | a, Rx.eps => a
  | a, b => Rx.seq a b

/-- Smart alternation that collapses fail. -/
def ralt : Rx → Rx → Rx
  | Rx.fail, b => b
  | a, Rx.fail => a
  | a, b => Rx.alt a b

/-- Whether the regular expression accepts the empty string. -/
def nullable : Rx → Bool
  | Rx.fail => false
  | Rx.eps => true
  | Rx.cls _ => false
  | Rx.seq a b => nullable a && nullable b
  | Rx.alt a b => nullable a || nullable b
  | Rx.star _ => true

/-- Brzozowski derivative of a regular expression by one character. -/
def rderiv : Rx → Char → Rx
  | Rx.fail, _ => Rx.fail
  | Rx.eps, _ => Rx.fail
  | Rx.cls p, c => if p c then Rx.eps else Rx.fail
  | Rx.seq a b, c =>
      if nullable a then ralt (rseq (rderiv a c) b) (rderiv b c)
      else rseq (rderiv a c) b
  | Rx.alt a b, c => ralt (rderiv a c) (rderiv b c)
  | Rx.star a, c => rseq (rderiv a c) (Rx.star a)

/-- Whether some prefix of the input matches the regular expression.
This is the truth value of Python re.match(pattern, s). -/
def matchPref : Rx → List Char → Bool
  | r, [] => nullable r
  | r, c :: cs => nullable r || matchPref (rderiv r c) cs

/-- Whether the regular expression matches starting at any position.
This is the truth value of Python re.search(pattern, s). -/
def searchL : Rx → List Char → Bool
  | r, [] => nullable r
  | r, c :: cs => matchPref r (c :: cs) || searchL r cs

/-- Single-character literal. -/
def rchr (c : Char) : Rx := Rx.cls (fun d => d == c)

/-- Literal string. -/
def rstr (s : String) : Rx := s.data.foldr (fun c r => Rx.seq (rchr c) r) Rx.eps

/-- Concatenation of a list of regular expressions. -/
def rcat (l : List Rx) : Rx := l.foldr Rx.seq Rx.eps

/-- Zero-or-one occurrence. -/
def ropt (r : Rx) : Rx := Rx.alt Rx.eps r

/-- One-or-more occurrences. -/
def rplus (r : Rx) : Rx := Rx.seq r (Rx.star r)

/-- Exactly n occurrences. -/
def rrep : Nat → Rx → Rx
  | 0, _ => Rx.eps
  | n + 1, r => Rx.seq r (rrep n r)

/- Character classes appearing in app.py's patterns. -/

/-- Class [A-Za-z0-9_-]. -/
def cAlnumUH (c : Char) : Bool := c.isAlphanum || c == '_' || c == '-'

/-- Class [A-Za-z0-9_.-]. -/
def cAlnumUDH (c : Char) : Bool := c.isAlphanum || c == '_' || c == '.' || c == '-'

/-- Class [a-f0-9-]. -/
def cHexLowDash (c : Char) : Bool :=
  c.isDigit || (Nat.ble 97 c.toNat && Nat.ble c.toNat 102) || c == '-'

/-- Class [0-9]. -/
def cDigit (c : Char) : Bool := c.isDigit

/-- Class [A-Za-z0-9_\/@.-]. -/
def cPathGeneral (c : Char) : Bool :=
  c.isAlphanum || c == '_' || c == '/' || c == '@' || c == '.' || c == '-'

/-- Class of alphanumerics, underscore, slash and hyphen. -/
def cPathStory (c : Char) : Bool :=
  c.isAlphanum || c == '_' || c == '/' || c == '-'

/-- The scheme part https?:// common to every pattern. -/
def rScheme : Rx := rcat [rstr "http", ropt (rchr 's'), rstr "://"]

/-- The ordered pattern list of SnapchatExtractor.is_valid_snapchat_url
(app.py lines 87-107), one Rx per Python raw-string pattern. -/
def snapchat_patterns : List Rx :=
  [ rcat [rScheme, ropt (rstr "www."), Rx.alt (rstr "snapchat.com") (rstr "snap.chat"),
      rstr "/t/", rplus (Rx.cls cAlnumUH)],
    rcat [rScheme, ropt (rstr "www."), Rx.alt (rstr "snapchat.com") (rstr "snap.chat"),
      rstr "/s/", rplus (Rx.cls cAlnumUH)],
    rcat [rScheme, ropt (rstr "story."), rstr "snapchat.com",
      rstr "/s/", rplus (Rx.cls cAlnumUH)],
    rcat [rScheme, ropt (rstr "story."), rstr "snapchat.com",
      rstr "/p/", rplus (Rx.cls cAlnumUH)],
    rcat [rScheme, ropt (rstr "www."), rstr "snapchat.com",
      rstr "/discover/", rplus (Rx.cls cAlnumUH)],
    rcat [rScheme, ropt (rstr "www."), rstr "snapchat.com",
      rstr "/spotlight/", rplus (Rx.cls cAlnumUH)],
    rcat [rScheme, ropt (rstr "www."), rstr "snapchat.com/@",
      rplus (Rx.cls cAlnumUDH), rstr "/spotlight/", rplus (Rx.cls cAlnumUH)],
    rcat [rScheme, ropt (rstr "www."), rstr "snapchat.com/spotlight/",
      rplus (Rx.cls cAlnumUH), rchr '?'],
    rcat [rScheme, rstr "story.snapchat.com/p/",
      rrep 36 (Rx.cls cHexLowDash), rchr '/', rplus (Rx.cls cDigit)],
    rcat [rScheme, rstr "story.snapchat.com/s/",
      rplus (Rx.cls cAlnumUH), rchr '?'],
    rcat [rScheme, ropt (rstr "www."), rstr "snapchat.com/",
      rplus (Rx.cls cPathGeneral)],
    rcat [rScheme, rstr "story.snapchat.com/",
      rplus (Rx.cls cPathStory)],
    rcat [rScheme, rstr "t.snapchat.com/", rplus (Rx.cls cAlnumUH)],
    rcat [rScheme, rstr "www.snapchat.com/add/", rplus (Rx.cls cAlnumUDH)] ]

/-- SnapchatExtractor.is_valid_snapchat_url (app.py lines 85-109):
true when any of the ordered patterns re.match-es the URL. -/
def is_valid_snapchat_url (url : String) : Bool :=
  snapchat_patterns.any (fun r => matchPref r url.data)

/-- The domain-substring test of extract_video_info (app.py line 177):
any(domain in url.lower() for domain in ['snapchat.com', 'snap.chat']). -/
def contains_snap_domain (url : String) : Bool :=
  hasSub "snapchat.com".data (lowerL url.data) || hasSub "snap.chat".data (lowerL url.data)

/-- Outcome of the URL validation prefix of extract_video_info, before
the extraction engine (and hence the network) is touched. -/
inductive UrlGate where
  | rejected : String → UrlGate
  | proceed : (warned : Bool) → UrlGate
deriving DecidableEq, Repr

/-- The validation gate of SnapchatExtractor.extract_video_info
(app.py lines 174-180): an invalid URL raises ValueError only when it
also lacks a Snapchat domain substring; otherwise extraction proceeds
(with a warning) to the yt-dlp engine invocation, i.e. to the network. -/
def extract_url_gate (url : String) : UrlGate :=
  if is_valid_snapchat_url url then UrlGate.proceed false
  else if contains_snap_domain url then UrlGate.proceed true
  else UrlGate.rejected "URL must be from Snapchat"

/-- The story-URL patterns of SnapchatExtractor.is_story_url
(app.py lines 121-124), applied with re.search. -/
def story_patterns : List Rx :=
  [ rcat [rScheme, rstr "story.snapchat.com/p/"],
    rcat [rScheme, rstr "story.snapchat.com/s/"] ]

/-- SnapchatExtractor._is_story_url (app.py lines 119-125). -/
def is_story_url (url : String) : Bool :=
  story_patterns.any (fun r => searchL r url.data)

/- Format records.  RawFormat embeds one entry of the yt-dlp info dict's
formats list restricted to the keys app.py reads; a key absent from the
dict is the Option none (ext, height, ...) or the empty string where the
code itself defaults with fmt.get(key, ''). -/

/-- One raw format dict from the extraction engine, restricted to the
keys read by extract_video_info (app.py lines 227-249). -/
structure RawFormat where
  format_id : String := "unknown"
  url : String := ""
  ext : Option String := none
  quality : Int := 0
  filesize : Option Nat := none
  width : Option Nat := none
  height : Option Nat := none
  fps : Option Nat := none
  vcodec : String := ""
  acodec : String := ""
  protocol : String := ""
deriving DecidableEq, Repr

/-- The format_info dict built by extract_video_info
(app.py lines 231-243), with the two keys added on the HLS branch
(needs_conversion, original_ext) defaulting to their absent values. -/
structure FormatInfo where
  format_id : String
  url : String
  ext : String
  quality : Int
  filesize : Option Nat
  width : Option Nat
  height : Option Nat
  fps : Option Nat
  vcodec : String
  acodec : String
  protocol : String
  needs_conversion : Bool := false
  original_ext : Option String := none
deriving DecidableEq, Repr

/-- The is_hls test of extract_video_info (app.py lines 246-249):
url ends with .m3u8, or protocol equals m3u8, or the lowercased
protocol contains hls, or the declared extension is m3u8. -/
def is_hls_format (f : RawFormat) : Bool :=
  endsWithL ".m3u8".data f.url.data
    || f.protocol == "m3u8"
    || hasSub "hls".data (lowerL f.protocol.data)
    || f.ext == some "m3u8"

/-- The MP4-family test of extract_video_info (app.py lines 259-261):
extension mp4, or mp4 occurring in the URL, or a vcodec starting
with h264. -/
def is_mp4_family (f : RawFormat) : Bool :=
  f.ext == some "mp4"
    || hasSub "mp4".data f.url.data
    || prefixOfL "h264".data f.vcodec.data

/-- Construction of format_info from a raw format dict
(app.py lines 231-243); ext defaults to mp4 when absent. -/
def mkFormatInfo (f : RawFormat) : FormatInfo :=
  { format_id := f.format_id
    url := f.url
    ext := f.ext.getD "mp4"
    quality := f.quality
    filesize := f.filesize
    width := f.width
    height := f.height
    fps := f.fps
    vcodec := f.vcodec
    acodec := f.acodec
    protocol := f.protocol }

/-- The HLS-branch rewrite of format_info (app.py lines 254-256):
needs_conversion is set, original_ext records the previously stored
extension, and ext is retargeted to mp4. -/
def mkHlsFormatInfo (f : RawFormat) : FormatInfo :=
  { mkFormatInfo f with
    needs_conversion := true
    original_ext := some (f.ext.getD "mp4")
    ext := "mp4" }

/-- The format-classification and ordering loop of extract_video_info
(app.py lines 221-272): formats without a URL are skipped; HLS formats
are kept (tagged for conversion) only for story URLs with FFmpeg
available; the remainder splits into MP4-family and other; story output
is HLS then MP4 then other, non-story output is MP4 then other, both
truncated to five entries. -/
def process_formats (is_story ffmpeg_available : Bool) (raw : List RawFormat) :
    List FormatInfo :=
  let present := raw.filter (fun f => !(f.url == ""))
  let hls_formats :=
    if is_story && ffmpeg_available then
      (present.filter (fun f => is_hls_format f)).map mkHlsFormatInfo
    else []
  let mp4_formats :=
    (present.filter (fun f => !(is_hls_format f) && is_mp4_family f)).map mkFormatInfo
  let other_formats :=
    (present.filter (fun f => !(is_hls_format f) && !(is_mp4_family f))).map mkFormatInfo
  if is_story then (hls_formats ++ mp4_formats ++ other_formats).take 5
  else (mp4_formats ++ other_formats).take 5

/-- The mediaUrl override of extract_video_info (app.py lines 274-281):
when the formats list is nonempty, mediaUrl becomes the URL of the first
entry whose ext is mp4, or of the first entry when none is; otherwise
the initial value (the engine's own url or webpage_url) stands. -/
def select_media_url (initial : Option String) (formats : List FormatInfo) :
    Option String :=
  match formats with
  | [] => initial
  | f0 :: _ =>
    match formats.find? (fun f => f.ext == "mp4") with
    | some best => some best.url
    | none => some f0.url

/-- The primary-URL selection in the words of the specification
(spec section 4.3), for comparison with select_media_url: the direct
(non-adaptive) variant of highest vertical resolution, ties broken by
original order; if no direct variant exists, the first variant in
engine-reported order. -/
def spec_claimed_primary (raw : List RawFormat) : Option String :=
  let present := raw.filter (fun f => !(f.url == ""))
  let directs := present.filter (fun f => !(is_hls_format f))
  let best := directs.foldl
    (fun acc f =>
      match acc with
      | none => some f
      | some b => if b.height.getD 0 < f.height.getD 0 then some f else some b)
    none
  match best with
  | some f => some f.url
  | none => present.head?.map (fun f => f.url)

/- The conversion service (SnapchatExtractor._convert_hls_to_mp4,
app.py lines 127-169).  The subprocess and the filesystem are oracles:
run gives the outcome of executing a command line, and after_size gives
the size of the output path when the exists/getsize check runs (none
when the file is absent). -/

/-- Outcome of one subprocess.run invocation of the encoder. -/
inductive ProcOutcome where
  | ok : ProcOutcome
  | nonzero : (stderr : String) → ProcOutcome
  | timedOut : ProcOutcome
deriving DecidableEq, Repr

/-- Environment of one conversion attempt: encoder availability, the
subprocess oracle, and the output file's size at check time. -/
structure ConvEnv where
  ffmpeg_available : Bool
  run : List String → ProcOutcome
  after_size : Option Nat

/-- The single FFmpeg command line built by _convert_hls_to_mp4
(app.py lines 134-142): stream copy, faststart, mp4 container,
overwrite. -/
def primary_cmd (hls_url output_path : String) : List String :=
  ["ffmpeg", "-i", hls_url, "-c", "copy", "-movflags", "+faststart",
   "-f", "mp4", "-y", output_path]

/-- SnapchatExtractor._convert_hls_to_mp4 (app.py lines 127-169):
without FFmpeg it raises immediately; otherwise it runs the one command,
mapping a timeout and a non-zero exit to distinct errors, and on a zero
exit reports success only if the output file exists with non-zero size. -/
def convert_hls_to_mp4 (env : ConvEnv) (hls_url output_path : String) :
    Except String String :=
  if !env.ffmpeg_available then
    Except.error "FFmpeg is not available for HLS conversion"
  else
    match env.run (primary_cmd hls_url output_path) with
    | ProcOutcome.timedOut => Except.error "Video conversion timed out"
    | ProcOutcome.nonzero stderr =>
        Except.error ("Video conversion failed: " ++ stderr)
    | ProcOutcome.ok =>
        match env.after_size with
        | some n =>
            if 0 < n then Except.ok output_path
            else Except.error
              "FFmpeg conversion failed - output file is empty or doesn't exist"
        | none => Except.error
            "FFmpeg conversion failed - output file is empty or doesn't exist"

/-- The command lines _convert_hls_to_mp4 hands to subprocess.run: none
when FFmpeg is unavailable, and exactly the one primary command
otherwise (the function builds no second, fallback command). -/
def convert_commands (env : ConvEnv) (hls_url output_path : String) :
    List (List String) :=
  if !env.ffmpeg_available then []
  else [primary_cmd hls_url output_path]

/- The download route (app.py lines 432-544). -/

/-- A response of the download route: a structured JSON error with its
HTTP status, a send_file of a local path (as attachment, with the
download name and mimetype passed), or the streaming proxy of a remote
URL with its Content-Disposition header value. -/
inductive DlResponse where
  | json : (status : Nat) → (success : Bool) → (error : String) → DlResponse
  | file : (path : String) → (as_attachment : Bool) → (download_name : String) →
      (mimetype : String) → DlResponse
  | proxy : (url : String) → (content_disposition : String) → DlResponse
deriving DecidableEq, Repr

/-- The local-path test of download_video (app.py line 487):
starts with a slash, or has length above three with a Windows drive
colon-backslash at indices one and two. -/
def is_local_path_url (u : String) : Bool :=
  prefixOfL "/".data u.data
    || (decide (3 < u.data.length) && ((u.data.drop 1).take 2 == ":\\".data))

/-- The m3u8-conversion branch condition of download_video
(app.py line 452): the url ends with .m3u8 or contains m3u8, and a
non-empty original_url was supplied. -/
def m3u8_branch (url original_url : String) : Bool :=
  (endsWithL ".m3u8".data url.data || hasSub "m3u8".data url.data)
    && !(original_url == "")

/-- Environment of one download request: the filesystem-existence
oracle, the conversion environment, and the fresh timestamped output
path the handler would generate. -/
structure DownloadEnv where
  fexists : String → Bool
  conv : ConvEnv
  fresh_output_path : String

/-- The download_video route handler (app.py lines 432-544): a missing
url parameter is a 400; an m3u8 url with an original_url converts for
story URLs when FFmpeg is available (serving the converted file, or a
500 on conversion failure) and is a 500 otherwise; a local-path url is
served as an attachment when the file exists and is a 404 otherwise;
anything else is proxied with an attachment disposition. -/
def download_video_route (env : DownloadEnv) (url filename original_url : String) :
    DlResponse :=
  if url == "" then DlResponse.json 400 false "URL parameter is required"
  else if m3u8_branch url original_url then
    if is_story_url original_url && env.conv.ffmpeg_available then
      match convert_hls_to_mp4 env.conv url env.fresh_output_path with
      | Except.ok converted_path =>
          DlResponse.file converted_path true filename "video/mp4"
      | Except.error e =>
          DlResponse.json 500 false ("Video conversion failed: " ++ e)
    else DlResponse.json 500 false "M3U8 conversion not available (FFmpeg required)"
  else if is_local_path_url url then
    if env.fexists url then DlResponse.file url true filename "video/mp4"
    else DlResponse.json 404 false "Converted file not found"
  else DlResponse.proxy url ("attachment; filename=\"" ++ filename ++ "\"")

/- The converted-file retrieval route.  Modelled from the spec: the
route GET /api/download-converted/<fileId> belongs to the repository's
second service implementation, which is not under src/ (src/app.py has
no such route); sections 6 and 8 of the spec fix its behavior. -/

/-- Hexadecimal digit test for UUID validation. -/
def is_hex_char (c : Char) : Bool :=
  c.isDigit
    || (Nat.ble 97 c.toNat && Nat.ble c.toNat 102)
    || (Nat.ble 65 c.toNat && Nat.ble c.toNat 70)

/-- Modelled from the spec: a well-formed unique-identifier token in the
canonical 8-4-4-4-12 UUID shape, hyphens at positions 8, 13, 18 and 23
and hexadecimal digits elsewhere. -/
def is_well_formed_uuid (s : String) : Bool :=
  s.data.length == 36
    && s.data.enum.all (fun p =>
        if p.1 == 8 || p.1 == 13 || p.1 == 18 || p.1 == 23 then p.2 == '-'
        else is_hex_char p.2)

/-- Modelled from the spec: the GET /api/download-converted/<fileId>
route, absent from src/app.py.  Per spec sections 6 and 8 it validates
fileId as a well-formed unique-identifier token before building a
filesystem path, answers 400 with an Invalid file ID error on a
malformed token, 404 with a File not found or expired error when the
file at the built path is missing, and otherwise serves the file. -/
def download_converted_route (fexists : String → Bool)
    (temp_dir fileId filename : String) : DlResponse :=
  if !(is_well_formed_uuid fileId) then
    DlResponse.json 400 false "Invalid file ID"
  else
    let path := temp_dir ++ "/" ++ fileId ++ ".mp4"
    if !(fexists path) then
      DlResponse.json 404 false "File not found or expired"
    else DlResponse.file path true filename "video/mp4"

/- The temp-file janitor.  Modelled from the spec: the background
cleanup sweep belongs to the repository's second service
implementation, which is not under src/ (src/app.py starts no cleanup
task); spec sections 4.6 and 8 fix its behavior. -/

/-- A regular file in the working temp directory with its
last-modified timestamp (seconds). -/
structure TempFileRec where
  name : String
  mtime : Nat
deriving DecidableEq, Repr

/-- Modelled from the spec: the janitor's age threshold, one hour. -/
def janitor_max_age_seconds : Nat := 3600

/-- Modelled from the spec: the janitor's sweep interval, hourly. -/
def janitor_interval_seconds : Nat := 3600

/-- Modelled from the spec: one janitor sweep, absent from src/app.py.
Per spec sections 4.6 and 8 it visits every file of the working
directory, deletes those whose age (now minus mtime) exceeds the
threshold, and treats a per-file deletion failure (the delete_ok oracle
answering false) as log-and-continue, leaving that file in place while
still sweeping the rest. -/
def janitor_sweep (delete_ok : String → Bool) (now : Nat)
    (files : List TempFileRec) : List TempFileRec :=
  files.filter (fun f =>
    !(decide (janitor_max_age_seconds < now - f.mtime) && delete_ok f.name))

/- Theorems.  Each claim of the specification is settled below against
the definitions above. -/

/-- C1, counterexample: the claim says every URL matching none of the
supported patterns is rejected before the extraction engine runs, but
the URL https://notsnapchat.com/x matches no pattern (its host is not a
Snapchat host) yet contains snapchat.com as a substring, so the gate of
extract_video_info lets it proceed (with only a warning) into the
yt-dlp engine invocation, i.e. into a network call. -/
theorem c1_claim_counterexample :
    is_valid_snapchat_url "https://notsnapchat.com/x" = false ∧
    extract_url_gate "https://notsnapchat.com/x" = UrlGate.proceed true :=
  ⟨by decide, by decide⟩

/-- C1, amended: a URL matching none of the supported patterns is
rejected with the user-facing ValueError before any engine invocation
only when it also does not contain snapchat.com or snap.chat as a
case-insensitive substring; such substring-bearing URLs proceed to the
engine despite matching no pattern. -/
theorem c1_amended_gate_rejects :
    ∀ url : String, is_valid_snapchat_url url = false →
    contains_snap_domain url = false →
    extract_url_gate url = UrlGate.rejected "URL must be from Snapchat" := by
  intro url h1 h2
  simp [extract_url_gate, h1, h2]

/-- C1, witness: the amended gate theorem applied to a concrete
non-Snapchat URL. -/
theorem c1_amended_gate_rejects_witness :
    extract_url_gate "https://example.com/watch" =
      UrlGate.rejected "URL must be from Snapchat" :=
  c1_amended_gate_rejects "https://example.com/watch" (by decide) (by decide)

/-- C2: any url query parameter shaped like an absolute path (leading
slash or Windows drive prefix) that names an existing file is served by
the download route as an attachment with the caller-chosen filename,
with no containment check against the working temp directory and no
check that it resulted from a prior conversion: the conclusion holds
for every filesystem oracle and every such path. -/
theorem c2_local_path_served_unchecked :
    ∀ (env : DownloadEnv) (url filename : String),
    is_local_path_url url = true →
    env.fexists url = true →
    download_video_route env url filename "" =
      DlResponse.file url true filename "video/mp4" := by
  intro env url filename hpath hex
  by_cases hu : url = ""
  · subst hu; exact absurd hpath (by decide)
  · have hne : (url == "") = false := beq_eq_false_iff_ne.mpr hu
    simp [download_video_route, m3u8_branch, hne, hpath, hex]

/-- C2, witness: the route serves /etc/passwd, a path far outside the
working temp directory, when the filesystem reports it present. -/
theorem c2_local_path_served_unchecked_witness :
    download_video_route
      ⟨fun _ => true, ⟨true, fun _ => ProcOutcome.ok, some 1⟩, "/tmp/out.mp4"⟩
      "/etc/passwd" "video.mp4" "" =
      DlResponse.file "/etc/passwd" true "video.mp4" "video/mp4" :=
  c2_local_path_served_unchecked
    ⟨fun _ => true, ⟨true, fun _ => ProcOutcome.ok, some 1⟩, "/tmp/out.mp4"⟩
    "/etc/passwd" "video.mp4" (by decide) rfl

/-- C3, counterexample: the claim says a failing primary stream-copy
command is followed by exactly one fallback re-encode command, but at
an environment whose subprocess oracle reports a non-zero exit for the
primary command, _convert_hls_to_mp4 hands subprocess.run exactly the
one primary command line (no second, fallback command exists in the
code) and fails. -/
theorem c3_claim_counterexample :
    convert_commands ⟨true, fun _ => ProcOutcome.nonzero "boom", none⟩
      "https://cdn.example/v.m3u8" "/tmp/out.mp4" =
      [primary_cmd "https://cdn.example/v.m3u8" "/tmp/out.mp4"] ∧
    (convert_commands ⟨true, fun _ => ProcOutcome.nonzero "boom", none⟩
      "https://cdn.example/v.m3u8" "/tmp/out.mp4").length = 1 ∧
    convert_hls_to_mp4 ⟨true, fun _ => ProcOutcome.nonzero "boom", none⟩
      "https://cdn.example/v.m3u8" "/tmp/out.mp4" =
      Except.error ("Video conversion failed: " ++ "boom") :=
  ⟨rfl, rfl, rfl⟩

/-- C3, amended: when the primary stream-copy command exits non-zero,
the conversion fails immediately with a conversion error and no
fallback command is attempted; the list of commands handed to the
subprocess layer is exactly the one primary command, so conversion is
never retried automatically at all. -/
theorem c3_amended_no_fallback :
    ∀ (env : ConvEnv) (hls_url output_path stderr : String),
    env.ffmpeg_available = true →
    env.run (primary_cmd hls_url output_path) = ProcOutcome.nonzero stderr →
    convert_hls_to_mp4 env hls_url output_path =
      Except.error ("Video conversion failed: " ++ stderr) ∧
    convert_commands env hls_url output_path = [primary_cmd hls_url output_path] := by
  intro env hls_url output_path stderr ha hrun
  constructor
  · simp [convert_hls_to_mp4, ha, hrun]
  · simp [convert_commands, ha]

/-- C3, witness: the amended no-fallback theorem applied at a concrete
failing environment. -/
theorem c3_amended_no_fallback_witness :
    convert_hls_to_mp4 ⟨true, fun _ => ProcOutcome.nonzero "err", some 0⟩
      "https://cdn.example/s.m3u8" "/tmp/o.mp4" =
      Except.error ("Video conversion failed: " ++ "err") ∧
    convert_commands ⟨true, fun _ => ProcOutcome.nonzero "err", some 0⟩
      "https://cdn.example/s.m3u8" "/tmp/o.mp4" =
      [primary_cmd "https://cdn.example/s.m3u8" "/tmp/o.mp4"] :=
  c3_amended_no_fallback ⟨true, fun _ => ProcOutcome.nonzero "err", some 0⟩
    "https://cdn.example/s.m3u8" "/tmp/o.mp4" "err" rfl rfl

/-- C6: _convert_hls_to_mp4 reports success only when FFmpeg was
available, the command exited zero, and the output file exists with
non-zero size at the moment of the check, in which case the reported
path is the requested output path; and whenever the command does not
exit zero or the output file is absent or empty afterward, the
function produces a conversion error and no success result. -/
theorem c6_conversion_success_conditions :
    ∀ (env : ConvEnv) (hls_url output_path : String),
    (∀ p, convert_hls_to_mp4 env hls_url output_path = Except.ok p →
      p = output_path ∧ env.ffmpeg_available = true ∧
      env.run (primary_cmd hls_url output_path) = ProcOutcome.ok ∧
      ∃ n, env.after_size = some n ∧ 0 < n) ∧
    ((env.run (primary_cmd hls_url output_path) ≠ ProcOutcome.ok ∨
        env.after_size = none ∨ env.after_size = some 0) →
      ∃ msg, convert_hls_to_mp4 env hls_url output_path = Except.error msg) := by
  intro env hls_url output_path
  constructor
  · intro p hp
    by_cases ha : env.ffmpeg_available
    · cases hrun : env.run (primary_cmd hls_url output_path) with
      | timedOut => simp [convert_hls_to_mp4, ha, hrun] at hp
      | nonzero stderr => simp [convert_hls_to_mp4, ha, hrun] at hp
      | ok =>
        cases hsz : env.after_size with
        | none => simp [convert_hls_to_mp4, ha, hrun, hsz] at hp
        | some n =>
          by_cases hn : 0 < n
          · simp [convert_hls_to_mp4, ha, hrun, hsz, hn] at hp
            exact ⟨hp.symm, ha, rfl, ⟨n, rfl, hn⟩⟩
          · simp [convert_hls_to_mp4, ha, hrun, hsz, hn] at hp
    · simp [convert_hls_to_mp4, ha] at hp
  · intro hbad
    by_cases ha : env.ffmpeg_available
    · cases hrun : env.run (primary_cmd hls_url output_path) with
      | timedOut =>
        exact ⟨"Video conversion timed out", by simp [convert_hls_to_mp4, ha, hrun]⟩
      | nonzero stderr =>
        exact ⟨"Video conversion failed: " ++ stderr,
          by simp [convert_hls_to_mp4, ha, hrun]⟩
      | ok =>
        cases hsz : env.after_size with
        | none =>
          exact ⟨"FFmpeg conversion failed - output file is empty or doesn't exist",
            by simp [convert_hls_to_mp4, ha, hrun, hsz]⟩
        | some n =>
          rcases hbad with hbad | hbad | hbad
          · exact absurd hrun hbad
          · rw [hsz] at hbad; exact absurd hbad (by simp)
          · have hn0 : n = 0 := Option.some.inj (hsz.symm.trans hbad)
            subst hn0
            exact ⟨"FFmpeg conversion failed - output file is empty or doesn't exist",
              by simp [convert_hls_to_mp4, ha, hrun, hsz]⟩
    · exact ⟨"FFmpeg is not available for HLS conversion",
        by simp [convert_hls_to_mp4, ha]⟩

/-- C6, witness: a successful concrete conversion, from which the
success conditions follow by the theorem. -/
theorem c6_conversion_success_conditions_witness :
    "/tmp/o.mp4" = "/tmp/o.mp4" ∧
    ConvEnv.ffmpeg_available ⟨true, fun _ => ProcOutcome.ok, some 7⟩ = true ∧
    ConvEnv.run ⟨true, fun _ => ProcOutcome.ok, some 7⟩
      (primary_cmd "https://cdn.example/s.m3u8" "/tmp/o.mp4") = ProcOutcome.ok ∧
    ∃ n, ConvEnv.after_size ⟨true, fun _ => ProcOutcome.ok, some 7⟩ = some n ∧ 0 < n :=
  (c6_conversion_success_conditions ⟨true, fun _ => ProcOutcome.ok, some 7⟩
    "https://cdn.example/s.m3u8" "/tmp/o.mp4").1 "/tmp/o.mp4" rfl

/-- C4, counterexample: the claim says the primary mediaUrl is the
direct variant of highest vertical resolution, but for two direct mp4
variants of heights 480 and 720 listed in that engine order, the code
picks the first format whose extension is mp4 — the 480 one — while
the claimed selection picks the 720 one; no resolution sort exists in
the code. -/
theorem c4_claim_counterexample :
    select_media_url none (process_formats false true
      [{ format_id := "f1", url := "https://cdn.example/a", ext := some "mp4",
         height := some 480, protocol := "https" },
       { format_id := "f2", url := "https://cdn.example/b", ext := some "mp4",
         height := some 720, protocol := "https" }]) = some "https://cdn.example/a" ∧
    spec_claimed_primary
      [{ format_id := "f1", url := "https://cdn.example/a", ext := some "mp4",
         height := some 480, protocol := "https" },
       { format_id := "f2", url := "https://cdn.example/b", ext := some "mp4",
         height := some 720, protocol := "https" }] = some "https://cdn.example/b" ∧
    select_media_url none (process_formats false true
      [{ format_id := "f1", url := "https://cdn.example/a", ext := some "mp4",
         height := some 480, protocol := "https" },
       { format_id := "f2", url := "https://cdn.example/b", ext := some "mp4",
         height := some 720, protocol := "https" }]) ≠
      spec_claimed_primary
        [{ format_id := "f1", url := "https://cdn.example/a", ext := some "mp4",
           height := some 480, protocol := "https" },
         { format_id := "f2", url := "https://cdn.example/b", ext := some "mp4",
           height := some 720, protocol := "https" }] :=
  ⟨by decide, by decide, by decide⟩

/-- C4, amended: when the returned formats list is nonempty, the primary
mediaUrl is the URL of the first entry whose (possibly
conversion-retargeted) extension is mp4, or of the first entry when no
entry has extension mp4; the chosen URL always belongs to some returned
entry, and no resolution-based sort takes part in the choice. -/
theorem c4_amended_first_mp4_or_head :
    ∀ (initial : Option String) (is_story ffmpeg_available : Bool)
      (raw : List RawFormat) (f0 : FormatInfo) (rest : List FormatInfo),
    process_formats is_story ffmpeg_available raw = f0 :: rest →
    select_media_url initial (process_formats is_story ffmpeg_available raw) =
      some ((((f0 :: rest).find? (fun f => f.ext == "mp4")).getD f0).url) ∧
    ∃ f ∈ process_formats is_story ffmpeg_available raw,
      select_media_url initial (process_formats is_story ffmpeg_available raw) =
        some f.url := by
  intro initial is_story ffa raw f0 rest h
  rw [h]
  cases hfind : (f0 :: rest).find? (fun f => f.ext == "mp4") with
  | some best =>
    constructor
    · simp [select_media_url, hfind]
    · exact ⟨best, List.mem_of_find?_eq_some hfind, by simp [select_media_url, hfind]⟩
  | none =>
    constructor
    · simp [select_media_url, hfind]
    · exact ⟨f0, List.mem_cons_self f0 rest, by simp [select_media_url, hfind]⟩

/-- C4, witness: the amended selection theorem applied to a one-variant
extraction. -/
theorem c4_amended_first_mp4_or_head_witness :
    select_media_url none (process_formats false true
      [{ format_id := "f1", url := "https://cdn.example/a", ext := some "mp4",
         height := some 480, protocol := "https" }]) =
      some ((([mkFormatInfo
        { format_id := "f1", url := "https://cdn.example/a", ext := some "mp4",
          height := some 480, protocol := "https" }].find?
            (fun f => f.ext == "mp4")).getD
        (mkFormatInfo
          { format_id := "f1", url := "https://cdn.example/a", ext := some "mp4",
            height := some 480, protocol := "https" })).url) ∧
    ∃ f ∈ process_formats false true
      [{ format_id := "f1", url := "https://cdn.example/a", ext := some "mp4",
         height := some 480, protocol := "https" }],
      select_media_url none (process_formats false true
        [{ format_id := "f1", url := "https://cdn.example/a", ext := some "mp4",
           height := some 480, protocol := "https" }]) = some f.url :=
  c4_amended_first_mp4_or_head none false true
    [{ format_id := "f1", url := "https://cdn.example/a", ext := some "mp4",
       height := some 480, protocol := "https" }]
    (mkFormatInfo
      { format_id := "f1", url := "https://cdn.example/a", ext := some "mp4",
        height := some 480, protocol := "https" }) [] (by decide)

/-- C8: for a download request whose source the route classifies as a
local file path (and which does not trip the earlier m3u8-conversion
branch), an existing file is streamed as an attachment under the
caller-chosen filename with the fixed video/mp4 content type, and an
absent file yields the structured 404 not-found error. -/
theorem c8_local_download_found_or_404 :
    ∀ (env : DownloadEnv) (url filename original_url : String),
    m3u8_branch url original_url = false →
    is_local_path_url url = true →
    (env.fexists url = true →
      download_video_route env url filename original_url =
        DlResponse.file url true filename "video/mp4") ∧
    (env.fexists url = false →
      download_video_route env url filename original_url =
        DlResponse.json 404 false "Converted file not found") := by
  intro env url filename original_url hm hl
  have hu : url ≠ "" := by
    intro h; subst h; exact absurd hl (by decide)
  have hne : (url == "") = false := beq_eq_false_iff_ne.mpr hu
  constructor
  · intro hex; simp [download_video_route, hne, hm, hl, hex]
  · intro hex; simp [download_video_route, hne, hm, hl, hex]

/-- C8, witness: the local-download theorem applied to a filesystem
with the file absent (the post-janitor case) and one with it present. -/
theorem c8_local_download_found_or_404_witness :
    download_video_route
      ⟨fun _ => false, ⟨true, fun _ => ProcOutcome.ok, none⟩, "/tmp/o.mp4"⟩
      "/tmp/gone.mp4" "v.mp4" "" = DlResponse.json 404 false "Converted file not found" ∧
    download_video_route
      ⟨fun _ => true, ⟨true, fun _ => ProcOutcome.ok, none⟩, "/tmp/o.mp4"⟩
      "/tmp/here.mp4" "v.mp4" "" = DlResponse.file "/tmp/here.mp4" true "v.mp4" "video/mp4" :=
  ⟨(c8_local_download_found_or_404
      ⟨fun _ => false, ⟨true, fun _ => ProcOutcome.ok, none⟩, "/tmp/o.mp4"⟩
      "/tmp/gone.mp4" "v.mp4" "" (by decide) (by decide)).2 rfl,
   (c8_local_download_found_or_404
      ⟨fun _ => true, ⟨true, fun _ => ProcOutcome.ok, none⟩, "/tmp/o.mp4"⟩
      "/tmp/here.mp4" "v.mp4" "" (by decide) (by decide)).1 rfl⟩

/-- C9: the converted-file retrieval route validates fileId as a
well-formed unique-identifier token before building any filesystem
path, answering 400 with the Invalid file ID error on a malformed
token and 404 with the File not found or expired error on a well-formed
token whose file is missing. -/
theorem c9_download_converted_gatekeeping :
    ∀ (fexists : String → Bool) (temp_dir fileId filename : String),
    (is_well_formed_uuid fileId = false →
      download_converted_route fexists temp_dir fileId filename =
        DlResponse.json 400 false "Invalid file ID") ∧
    (is_well_formed_uuid fileId = true →
      fexists (temp_dir ++ "/" ++ fileId ++ ".mp4") = false →
      download_converted_route fexists temp_dir fileId filename =
        DlResponse.json 404 false "File not found or expired") := by
  intro fexists temp_dir fileId filename
  constructor
  · intro hbad; simp [download_converted_route, hbad]
  · intro hok hmiss; simp [download_converted_route, hok, hmiss]

/-- C9, witness: the gatekeeping theorem applied at a malformed token
and at a well-formed but unknown token over an empty filesystem. -/
theorem c9_download_converted_gatekeeping_witness :
    download_converted_route (fun _ => false) "/tmp" "not-a-uuid" "f.mp4" =
      DlResponse.json 400 false "Invalid file ID" ∧
    download_converted_route (fun _ => false) "/tmp"
      "123e4567-e89b-12d3-a456-426614174000" "f.mp4" =
      DlResponse.json 404 false "File not found or expired" :=
  ⟨(c9_download_converted_gatekeeping (fun _ => false) "/tmp" "not-a-uuid" "f.mp4").1
      (by decide),
   (c9_download_converted_gatekeeping (fun _ => false) "/tmp"
      "123e4567-e89b-12d3-a456-426614174000" "f.mp4").2 (by decide) rfl⟩

/-- C10: after a janitor sweep at a given time, every file whose age
exceeded the one-hour threshold and whose deletion succeeded is absent,
every file at or under the threshold remains, and the sweep runs on the
fixed hourly interval; the absence conclusion holds per file under an
arbitrary deletion oracle, so one file's deletion failure never
prevents the sweep of the rest. -/
theorem c10_janitor_sweep_contract :
    ∀ (delete_ok : String → Bool) (now : Nat) (files : List TempFileRec),
    (∀ f ∈ files, janitor_max_age_seconds < now - f.mtime →
      delete_ok f.name = true → f ∉ janitor_sweep delete_ok now files) ∧
    (∀ f ∈ files, now - f.mtime ≤ janitor_max_age_seconds →
      f ∈ janitor_sweep delete_ok now files) ∧
    janitor_interval_seconds = 3600 := by
  intro delete_ok now files
  refine ⟨?_, ?_, rfl⟩
  · intro f hf hage hdel hmem
    have hkeep := (List.mem_filter.mp hmem).2
    simp [hage, hdel] at hkeep
  · intro f hf hage
    refine List.mem_filter.mpr ⟨hf, ?_⟩
    simp [Nat.not_lt.mpr hage]

/-- C10, witness: the sweep contract applied to a two-file directory at
a concrete time: the hour-old file goes, the fresh file stays. -/
theorem c10_janitor_sweep_contract_witness :
    (⟨"old.mp4", 0⟩ : TempFileRec) ∉
      janitor_sweep (fun _ => true) 7200 [⟨"old.mp4", 0⟩, ⟨"young.mp4", 7000⟩] ∧
    (⟨"young.mp4", 7000⟩ : TempFileRec) ∈
      janitor_sweep (fun _ => true) 7200 [⟨"old.mp4", 0⟩, ⟨"young.mp4", 7000⟩] :=
  ⟨(c10_janitor_sweep_contract (fun _ => true) 7200
      [⟨"old.mp4", 0⟩, ⟨"young.mp4", 7000⟩]).1 ⟨"old.mp4", 0⟩
      (by decide) (by decide) rfl,
   (c10_janitor_sweep_contract (fun _ => true) 7200
      [⟨"old.mp4", 0⟩, ⟨"young.mp4", 7000⟩]).2.1 ⟨"young.mp4", 7000⟩
      (by decide) (by decide)⟩

/-- Entries built by mkFormatInfo never carry the conversion flag. -/
theorem mkFormatInfo_not_conversion (l : List RawFormat) (f : FormatInfo)
    (h : f ∈ l.map mkFormatInfo) : f.needs_conversion = false := by
  obtain ⟨r, _, rfl⟩ := List.mem_map.mp h
  rfl

/-- C7: every entry of the returned formats list carrying the
needs_conversion flag has its container extension forced to mp4 and its
original_ext recording the raw format's reported extension (defaulted
to mp4 when the engine reported none), and stems from an HLS-classified
raw variant of the input list. -/
theorem c7_conversion_flag_invariant :
    ∀ (is_story ffmpeg_available : Bool) (raw : List RawFormat) (f : FormatInfo),
    f ∈ process_formats is_story ffmpeg_available raw →
    f.needs_conversion = true →
    f.ext = "mp4" ∧
    ∃ r ∈ raw, r.url ≠ "" ∧ is_hls_format r = true ∧
      f.url = r.url ∧ f.original_ext = some (r.ext.getD "mp4") := by
  intro is_story ffmpeg_available raw f hmem hconv
  cases is_story with
  | false =>
    simp only [process_formats, Bool.false_and, if_neg, Bool.false_eq_true,
      not_false_iff, reduceIte] at hmem
    have hmem2 := List.mem_of_mem_take hmem
    rcases List.mem_append.mp hmem2 with h | h <;>
      exact absurd hconv (by rw [mkFormatInfo_not_conversion _ _ h]; decide)
  | true =>
    cases ffmpeg_available with
    | false =>
      simp only [process_formats, Bool.and_false, Bool.false_eq_true,
        not_false_iff, reduceIte, List.nil_append] at hmem
      have hmem2 := List.mem_of_mem_take hmem
      rcases List.mem_append.mp hmem2 with h | h <;>
        exact absurd hconv (by rw [mkFormatInfo_not_conversion _ _ h]; decide)
    | true =>
      simp only [process_formats, Bool.and_self, reduceIte] at hmem
      have hmem2 := List.mem_of_mem_take hmem
      rcases List.mem_append.mp hmem2 with h | h
      · rcases List.mem_append.mp h with h1 | h2
        · obtain ⟨r, hr, rfl⟩ := List.mem_map.mp h1
          have hr1 := List.mem_filter.mp hr
          have hr2 := List.mem_filter.mp hr1.1
          refine ⟨rfl, r, hr2.1, ?_, hr1.2, rfl, rfl⟩
          simpa using hr2.2
        · exact absurd hconv (by rw [mkFormatInfo_not_conversion _ _ h2]; decide)
      · exact absurd hconv (by rw [mkFormatInfo_not_conversion _ _ h]; decide)

/-- C7, witness: the invariant theorem applied to a story extraction of
one HLS variant. -/
theorem c7_conversion_flag_invariant_witness :
    (mkHlsFormatInfo
      { format_id := "hls-1", url := "https://cdn.example/x.m3u8",
        ext := some "m3u8", protocol := "m3u8", height := some 1080 }).ext = "mp4" ∧
    ∃ r ∈ [({ format_id := "hls-1", url := "https://cdn.example/x.m3u8",
              ext := some "m3u8", protocol := "m3u8",
              height := some 1080 } : RawFormat)],
      r.url ≠ "" ∧ is_hls_format r = true ∧
      (mkHlsFormatInfo
        { format_id := "hls-1", url := "https://cdn.example/x.m3u8",
          ext := some "m3u8", protocol := "m3u8", height := some 1080 }).url = r.url ∧
      (mkHlsFormatInfo
        { format_id := "hls-1", url := "https://cdn.example/x.m3u8",
          ext := some "m3u8", protocol := "m3u8", height := some 1080 }).original_ext =
        some (r.ext.getD "mp4") :=
  c7_conversion_flag_invariant true true
    [{ format_id := "hls-1", url := "https://cdn.example/x.m3u8",
       ext := some "m3u8", protocol := "m3u8", height := some 1080 }]
    (mkHlsFormatInfo
      { format_id := "hls-1", url := "https://cdn.example/x.m3u8",
        ext := some "m3u8", protocol := "m3u8", height := some 1080 })
    (by decide) rfl

/-- C5, counterexample: the claim quantifies over every story extraction
whose raw list has at least one HLS and one direct variant, but when
FFmpeg is unavailable the code drops the HLS variants entirely, so for
the concrete raw list below (one HLS, one direct) the returned list
starts with the direct variant and contains no conversion-required
entry at all — the HLS variants are not placed first. -/
theorem c5_claim_counterexample :
    is_hls_format { format_id := "hls-1", url := "https://cdn.example/x.m3u8",
                    ext := some "m3u8", protocol := "m3u8",
                    height := some 1080 } = true ∧
    is_hls_format { format_id := "f1", url := "https://cdn.example/a",
                    ext := some "mp4", height := some 480,
                    protocol := "https" } = false ∧
    (process_formats true false
      [{ format_id := "hls-1", url := "https://cdn.example/x.m3u8",
         ext := some "m3u8", protocol := "m3u8", height := some 1080 },
       { format_id := "f1", url := "https://cdn.example/a",
         ext := some "mp4", height := some 480, protocol := "https" }]).all
      (fun f => !f.needs_conversion) = true ∧
    (process_formats true false
      [{ format_id := "hls-1", url := "https://cdn.example/x.m3u8",
         ext := some "m3u8", protocol := "m3u8", height := some 1080 },
       { format_id := "f1", url := "https://cdn.example/a",
         ext := some "mp4", height := some 480, protocol := "https" }]).head? =
      some (mkFormatInfo { format_id := "f1", url := "https://cdn.example/a",
                           ext := some "mp4", height := some 480,
                           protocol := "https" }) :=
  ⟨by decide, by decide, by decide, by decide⟩

/-- C5, amended: for a story extraction with FFmpeg available, whenever
the raw variant list contains at least one HLS variant and at least one
direct variant with URLs, the returned list has at most five entries,
conversion-required entries precede all others, the first entry is
conversion-required, and the list is the five-entry truncation of the
code's three ordered buckets: HLS-classified variants first, then
direct variants classified MP4-family on the raw record (reported
extension mp4, mp4 in the URL, or an h264 video codec), then the
remaining direct variants. -/
theorem c5_amended_story_ordering :
    ∀ raw : List RawFormat,
    (∃ r ∈ raw, r.url ≠ "" ∧ is_hls_format r = true) →
    (∃ r ∈ raw, r.url ≠ "" ∧ is_hls_format r = false) →
    (process_formats true true raw).length ≤ 5 ∧
    List.Pairwise
      (fun a b => b.needs_conversion = true → a.needs_conversion = true)
      (process_formats true true raw) ∧
    (∃ f, (process_formats true true raw).head? = some f ∧
      f.needs_conversion = true) ∧
    (∃ conv_part mp4_part other_part : List FormatInfo,
      process_formats true true raw =
        (conv_part ++ mp4_part ++ other_part).take 5 ∧
      (∀ f ∈ conv_part, ∃ r ∈ raw, r.url ≠ "" ∧ is_hls_format r = true ∧
        f = mkHlsFormatInfo r) ∧
      (∀ f ∈ mp4_part, ∃ r ∈ raw, r.url ≠ "" ∧ is_hls_format r = false ∧
        is_mp4_family r = true ∧ f = mkFormatInfo r) ∧
      (∀ f ∈ other_part, ∃ r ∈ raw, r.url ≠ "" ∧ is_hls_format r = false ∧
        is_mp4_family r = false ∧ f = mkFormatInfo r)) := by
  intro raw hhls _hdir
  have hproc : process_formats true true raw =
      (((raw.filter (fun f => !(f.url == ""))).filter
          (fun f => is_hls_format f)).map mkHlsFormatInfo ++
       ((raw.filter (fun f => !(f.url == ""))).filter
          (fun f => !(is_hls_format f) && is_mp4_family f)).map mkFormatInfo ++
       ((raw.filter (fun f => !(f.url == ""))).filter
          (fun f => !(is_hls_format f) && !(is_mp4_family f))).map mkFormatInfo).take 5 := by
    simp [process_formats]
  set A := ((raw.filter (fun f => !(f.url == ""))).filter
      (fun f => is_hls_format f)).map mkHlsFormatInfo with hAdef
  set B := ((raw.filter (fun f => !(f.url == ""))).filter
      (fun f => !(is_hls_format f) && is_mp4_family f)).map mkFormatInfo with hBdef
  set C := ((raw.filter (fun f => !(f.url == ""))).filter
      (fun f => !(is_hls_format f) && !(is_mp4_family f))).map mkFormatInfo with hCdef
  have hAnc : ∀ f ∈ A, f.needs_conversion = true := by
    intro f hf
    obtain ⟨r, _, rfl⟩ := List.mem_map.mp (hAdef ▸ hf)
    rfl
  have hBnc : ∀ f ∈ B, f.needs_conversion = false := by
    intro f hf
    exact mkFormatInfo_not_conversion _ f (hBdef ▸ hf)
  have hCnc : ∀ f ∈ C, f.needs_conversion = false := by
    intro f hf
    exact mkFormatInfo_not_conversion _ f (hCdef ▸ hf)
  have hPair : List.Pairwise
      (fun a b => b.needs_conversion = true → a.needs_conversion = true)
      (A ++ B ++ C) := by
    refine List.pairwise_append.mpr ⟨List.pairwise_append.mpr ⟨?_, ?_, ?_⟩, ?_, ?_⟩
    · exact List.pairwise_of_forall_mem_list (fun x hx y _ => fun _ => hAnc x hx)
    · exact List.pairwise_of_forall_mem_list
        (fun x _ y hy => fun h => Bool.noConfusion ((hBnc y hy) ▸ h))
    · intro a ha b _
      exact fun _ => hAnc a ha
    · exact List.pairwise_of_forall_mem_list
        (fun x _ y hy => fun h => Bool.noConfusion ((hCnc y hy) ▸ h))
    · intro a _ c hc
      exact fun h => Bool.noConfusion ((hCnc c hc) ▸ h)
  refine ⟨?_, ?_, ?_, ?_⟩
  · rw [hproc]; exact List.length_take_le 5 _
  · rw [hproc]; exact hPair.sublist (List.take_sublist 5 _)
  · obtain ⟨r0, hr0raw, hr0url, hr0hls⟩ := hhls
    have hr0p : r0 ∈ raw.filter (fun f => !(f.url == "")) :=
      List.mem_filter.mpr ⟨hr0raw, by simpa using hr0url⟩
    have hr0f : r0 ∈ (raw.filter (fun f => !(f.url == ""))).filter
        (fun f => is_hls_format f) := List.mem_filter.mpr ⟨hr0p, hr0hls⟩
    have hmemA : mkHlsFormatInfo r0 ∈ A := List.mem_map_of_mem mkHlsFormatInfo hr0f
    have hAne : A ≠ [] := List.ne_nil_of_mem hmemA
    obtain ⟨a, As, hAe⟩ := List.exists_cons_of_ne_nil hAne
    have haA : a ∈ A := by rw [hAe]; exact List.mem_cons_self a As
    refine ⟨a, ?_, hAnc a haA⟩
    rw [hproc, hAe]
    simp [List.cons_append]
  · refine ⟨A, B, C, hproc, ?_, ?_, ?_⟩
    · intro f hf
      obtain ⟨r, hr, rfl⟩ := List.mem_map.mp (hAdef ▸ hf)
      have h1 := List.mem_filter.mp hr
      have h2 := List.mem_filter.mp h1.1
      exact ⟨r, h2.1, by simpa using h2.2, h1.2, rfl⟩
    · intro f hf
      obtain ⟨r, hr, rfl⟩ := List.mem_map.mp (hBdef ▸ hf)
      have h1 := List.mem_filter.mp hr
      have h2 := List.mem_filter.mp h1.1
      obtain ⟨hnh, hfam⟩ := Bool.and_eq_true_iff.mp h1.2
      exact ⟨r, h2.1, by simpa using h2.2, by simpa using hnh, hfam, rfl⟩
    · intro f hf
      obtain ⟨r, hr, rfl⟩ := List.mem_map.mp (hCdef ▸ hf)
      have h1 := List.mem_filter.mp hr
      have h2 := List.mem_filter.mp h1.1
      obtain ⟨hnh, hnfam⟩ := Bool.and_eq_true_iff.mp h1.2
      exact ⟨r, h2.1, by simpa using h2.2, by simpa using hnh, by simpa using hnfam, rfl⟩

/-- C5, witness: the amended ordering theorem applied to a story
extraction with one HLS and one direct variant. -/
theorem c5_amended_story_ordering_witness :
    (process_formats true true
      [{ format_id := "hls-1", url := "https://cdn.example/x.m3u8",
         ext := some "m3u8", protocol := "m3u8", height := some 1080 },
       { format_id := "f1", url := "https://cdn.example/a",
         ext := some "mp4", height := some 480, protocol := "https" }]).length ≤ 5 ∧
    List.Pairwise
      (fun a b => b.needs_conversion = true → a.needs_conversion = true)
      (process_formats true true
        [{ format_id := "hls-1", url := "https://cdn.example/x.m3u8",
           ext := some "m3u8", protocol := "m3u8", height := some 1080 },
         { format_id := "f1", url := "https://cdn.example/a",
           ext := some "mp4", height := some 480, protocol := "https" }]) ∧
    (∃ f, (process_formats true true
      [{ format_id := "hls-1", url := "https://cdn.example/x.m3u8",
         ext := some "m3u8", protocol := "m3u8", height := some 1080 },
       { format_id := "f1", url := "https://cdn.example/a",
         ext := some "mp4", height := some 480, protocol := "https" }]).head? = some f ∧
      f.needs_conversion = true) ∧
    (∃ conv_part mp4_part other_part : List FormatInfo,
      process_formats true true
        [{ format_id := "hls-1", url := "https://cdn.example/x.m3u8",
           ext := some "m3u8", protocol := "m3u8", height := some 1080 },
         { format_id := "f1", url := "https://cdn.example/a",
           ext := some "mp4", height := some 480, protocol := "https" }] =
        (conv_part ++ mp4_part ++ other_part).take 5 ∧
      (∀ f ∈ conv_part, ∃ r ∈
        [({ format_id := "hls-1", url := "https://cdn.example/x.m3u8",
            ext := some "m3u8", protocol := "m3u8",
            height := some 1080 } : RawFormat),
         { format_id := "f1", url := "https://cdn.example/a",
           ext := some "mp4", height := some 480, protocol := "https" }],
        r.url ≠ "" ∧ is_hls_format r = true ∧ f = mkHlsFormatInfo r) ∧
      (∀ f ∈ mp4_part, ∃ r ∈
        [({ format_id := "hls-1", url := "https://cdn.example/x.m3u8",
            ext := some "m3u8", protocol := "m3u8",
            height := some 1080 } : RawFormat),
         { format_id := "f1", url := "https://cdn.example/a",
           ext := some "mp4", height := some 480, protocol := "https" }],
        r.url ≠ "" ∧ is_hls_format r = false ∧
        is_mp4_family r = true ∧ f = mkFormatInfo r) ∧
      (∀ f ∈ other_part, ∃ r ∈
        [({ format_id := "hls-1", url := "https://cdn.example/x.m3u8",
            ext := some "m3u8", protocol := "m3u8",
            height := some 1080 } : RawFormat),
         { format_id := "f1", url := "https://cdn.example/a",
           ext := some "mp4", height := some 480, protocol := "https" }],
        r.url ≠ "" ∧ is_hls_format r = false ∧
        is_mp4_family r = false ∧ f = mkFormatInfo r)) :=
  c5_amended_story_ordering
    [{ format_id := "hls-1", url := "https://cdn.example/x.m3u8",
       ext := some "m3u8", protocol := "m3u8", height := some 1080 },
     { format_id := "f1", url := "https://cdn.example/a",
       ext := some "mp4", height := some 480, protocol := "https" }]
    (by decide) (by decide)

end SnapDown
